import Mathlib

/-!
Shallow embedding of the Delta F1 backend (src/main.py) and verification of
its specification claims.

Modelling conventions:
* Python dicts become association lists (`List (String × β)`) queried with
  `List.lookup`; `dict.get(k, d)` becomes `(List.lookup k m).getD d`.
* Python exceptions become `Option` (inside a transform) or
  `Except HTTPException` (at a route handler / fetcher boundary).
* `datetime` values are embedded as `Nat` keys that preserve chronological
  order; `datetime.fromisoformat` (restricted to the date-only ISO strings
  that the Ergast date field carries) becomes `parseIsoDate`, which returns
  `none` exactly where `fromisoformat` raises `ValueError`.
* The Python builtin `hash` is a per-process arbitrary function, so it is a
  parameter `hash : String → Int` of the driver transform.
* Machine floats only ever hold exact multiples of 0.1 in this code, so they
  are embedded as rationals (`ℚ`).
-/

/-- FastAPI HTTPException: a status code plus a detail message. -/
structure HTTPException where
  status_code : Nat
  detail : String
deriving DecidableEq, Repr

/-- The Race response model of src/main.py. -/
structure Race where
  id : Int
  round : Int
  name : String
  circuit : String
  country : String
  countryCode : String
  date : String
deriving DecidableEq, Repr

/-- The DriverColors model: main and accent colors, optional secondary. -/
structure DriverColors where
  main : String
  accent : String
  secondary : Option String
deriving DecidableEq, Repr

/-- The Driver response model of src/main.py. -/
structure Driver where
  driverCode : String
  cost : ℚ
  driverName : String
  teamName : String
  deltaCost : ℚ
  driverImage : String
  teamImage : String
  colors : DriverColors
deriving DecidableEq, Repr

/-- Ergast wire shape: location of a circuit. -/
structure ErgastLocation where
  lat : String
  long : String
  locality : String
  country : String
deriving DecidableEq, Repr

/-- Ergast wire shape: a circuit. -/
structure ErgastCircuit where
  circuitId : String
  url : String
  circuitName : String
  Location : ErgastLocation
deriving DecidableEq, Repr

/-- Ergast wire shape: a race record. -/
structure ErgastRace where
  season : String
  round : String
  url : String
  raceName : String
  Circuit : ErgastCircuit
  date : String
  time : Option String
deriving DecidableEq, Repr

/-- Ergast wire shape: a driver record. -/
structure ErgastDriver where
  driverId : String
  permanentNumber : String
  code : String
  url : String
  givenName : String
  familyName : String
  dateOfBirth : String
  nationality : String
deriving DecidableEq, Repr

/-- COUNTRY_CODE_MAP from src/main.py lines 9-32. -/
def COUNTRY_CODE_MAP : List (String × String) :=
  [("Australia", "au"), ("Bahrain", "bh"), ("Saudi Arabia", "sa"),
   ("Japan", "jp"), ("China", "cn"), ("United States", "us"),
   ("Italy", "it"), ("Monaco", "mc"), ("Canada", "ca"), ("Spain", "es"),
   ("Austria", "at"), ("UK", "gb"), ("Hungary", "hu"), ("Belgium", "be"),
   ("Netherlands", "nl"), ("Singapore", "sg"), ("Azerbaijan", "az"),
   ("Mexico", "mx"), ("Brazil", "br"), ("Qatar", "qa"), ("UAE", "ae"),
   ("USA", "us")]

/-- DRIVER_TEAM_MAP from src/main.py lines 34-55. -/
def DRIVER_TEAM_MAP : List (String × String) :=
  [("ALB", "Williams Racing"), ("SAI", "Williams Racing"),
   ("VER", "Red Bull Racing"), ("TSU", "Red Bull Racing"),
   ("HAM", "Ferrari"), ("LEC", "Ferrari"),
   ("NOR", "McLaren Racing"), ("PIA", "McLaren Racing"),
   ("RUS", "Mercedes"), ("ANT", "Mercedes"),
   ("ALO", "Aston Martin"), ("STR", "Aston Martin"),
   ("BEA", "Haas F1 Team"), ("OCO", "Haas F1 Team"),
   ("GAS", "Alpine F1 Team"), ("COL", "Alpine F1 Team"),
   ("HAD", "RB F1 Team"), ("LAW", "RB F1 Team"),
   ("BOR", "Kick Sauber"), ("HUL", "Kick Sauber")]

/-- TEAM_COLORS from src/main.py lines 57-102; a missing secondary key of the
Python dict becomes `none`. -/
def TEAM_COLORS : List (String × DriverColors) :=
  [("Williams Racing", ⟨"#041E42", "#FFFFFF", none⟩),
   ("Red Bull Racing", ⟨"#001526", "#0073D0", none⟩),
   ("Ferrari", ⟨"#B41726", "#FFFFFF", some "#B41726"⟩),
   ("McLaren Racing", ⟨"#DE6A10", "#000000", some "#FF8700"⟩),
   ("Mercedes", ⟨"#00d7b7", "#000000", some "#FFFFFF"⟩),
   ("Aston Martin", ⟨"#0A5A4F", "#CEDC00", none⟩),
   ("Haas F1 Team", ⟨"#000", "#D92A1C", some "#FFFFFF"⟩),
   ("Alpine F1 Team", ⟨"#061A4D", "#FF87BC", none⟩),
   ("RB F1 Team", ⟨"#1433C9", "#FFFFFF", none⟩),
   ("Kick Sauber", ⟨"#07C00F", "#00000", none⟩)]

/-- TEAM_IMAGES from src/main.py lines 104-115. -/
def TEAM_IMAGES : List (String × String) :=
  [("Williams Racing", "src/assets/williams.avif"),
   ("Red Bull Racing", "src/assets/redbull.avif"),
   ("Ferrari", "src/assets/ferrari.avif"),
   ("McLaren Racing", "src/assets/mclaren.avif"),
   ("Mercedes", "src/assets/mercedes.avif"),
   ("Aston Martin", "src/assets/aston_martin.avif"),
   ("Haas F1 Team", "src/assets/haas.avif"),
   ("Alpine F1 Team", "src/assets/alpine.avif"),
   ("RB F1 Team", "src/assets/vcarb.avif"),
   ("Kick Sauber", "src/assets/kick_sauber.avif")]

/-- The fallback color dict of transform_ergast_driver_to_driver
(src/main.py lines 231-235). -/
def FALLBACK_COLORS : DriverColors := ⟨"#FFFFFF", "#000000", some "#808080"⟩

/-- get_country_code from src/main.py lines 211-213:
COUNTRY_CODE_MAP.get(country, "F1"). -/
def get_country_code (country : String) : String :=
  (List.lookup country COUNTRY_CODE_MAP).getD "F1"

/-! ### String and date parsing helpers -/

/-- Value of a decimal digit character, none for a non-digit. -/
def digitVal (c : Char) : Option Nat :=
  if c.isDigit then some (c.toNat - 48) else none

/-- Accumulating decimal parse of a digit list. -/
def natFromDigits : List Char → Nat → Option Nat
  | [], acc => some acc
  | c :: cs, acc =>
    match digitVal c with
    | some d => natFromDigits cs (acc * 10 + d)
    | none => none

/-- Parse a nonempty all-digit character list as a natural number. -/
def natOfChars (cs : List Char) : Option Nat :=
  match cs with
  | [] => none
  | _ => natFromDigits cs 0

/-- Models the Python int() builtin applied to the Ergast round string:
an optional leading minus sign followed by decimal digits; none where
int() raises ValueError. -/
def intOfString (s : String) : Option Int :=
  match s.toList with
  | '-' :: cs => (natOfChars cs).map (fun n => -(n : Int))
  | cs => (natOfChars cs).map (fun n => (n : Int))

/-- Split a character list into the groups separated by dashes. -/
def splitDash : List Char → List (List Char)
  | [] => [[]]
  | c :: cs =>
    if c = '-' then [] :: splitDash cs
    else
      match splitDash cs with
      | [] => [[c]]
      | g :: gs => (c :: g) :: gs

/-- Gregorian leap year rule, as implemented by the Python datetime module. -/
def isLeapYear (y : Nat) : Bool :=
  (y % 4 == 0 && y % 100 != 0) || y % 400 == 0

/-- Number of days in a month, as validated by datetime.fromisoformat. -/
def daysInMonth (y m : Nat) : Nat :=
  if m = 2 then (if isLeapYear y then 29 else 28)
  else if m = 4 ∨ m = 6 ∨ m = 9 ∨ m = 11 then 30 else 31

/-- Encode a calendar date as a Nat key preserving chronological order. -/
def dateKeyOf (y m d : Nat) : Nat := (y * 100 + m) * 100 + d

/-- Models datetime.fromisoformat restricted to the date-only ISO strings
YYYY-MM-DD that the Ergast date field carries: returns the order-preserving
key of the date, and none exactly where fromisoformat raises ValueError
(wrong shape, non-digits, or out-of-range month/day). -/
def parseIsoDate (s : String) : Option Nat :=
  match splitDash s.toList with
  | [ys, ms, ds] =>
    if ys.length = 4 ∧ ms.length = 2 ∧ ds.length = 2 then
      match natOfChars ys, natOfChars ms, natOfChars ds with
      | some y, some m, some d =>
        if 1 ≤ m ∧ m ≤ 12 ∧ 1 ≤ d ∧ d ≤ daysInMonth y m then
          some (dateKeyOf y m d)
        else none
      | _, _, _ => none
    else none
  | _ => none

/-! ### Generic association list lemma -/

/-- A lookup for a key absent from the key column returns none. -/
theorem lookup_eq_none_of_not_mem_keys {α β : Type} [BEq α] [LawfulBEq α]
    (k : α) (l : List (α × β)) (h : k ∉ l.map Prod.fst) :
    List.lookup k l = none := by
  induction l with
  | nil => rfl
  | cons p t ih =>
    obtain ⟨a, b⟩ := p
    simp only [List.map_cons, List.mem_cons] at h
    push_neg at h
    have hne : (k == a) = false := beq_eq_false_iff_ne.mpr h.1
    simp [List.lookup, hne, ih h.2]

/-- C6: for every country name that is a key of COUNTRY_CODE_MAP the lookup
returns exactly the mapped code, and for every absent name it returns the
sentinel F1. -/
theorem get_country_code_spec :
    (∀ p ∈ COUNTRY_CODE_MAP, get_country_code p.1 = p.2) ∧
    (∀ country : String, country ∉ COUNTRY_CODE_MAP.map Prod.fst →
      get_country_code country = "F1") := by
  constructor
  · decide
  · intro country h
    unfold get_country_code
    rw [lookup_eq_none_of_not_mem_keys country COUNTRY_CODE_MAP h]
    rfl

/-- Witness for C6 at the concrete country names Australia (present,
mapped to au) and Atlantis (absent, falling back to F1). -/
theorem get_country_code_spec_witness :
    ("Australia", "au") ∈ COUNTRY_CODE_MAP ∧
    "Atlantis" ∉ COUNTRY_CODE_MAP.map Prod.fst ∧
    get_country_code "Australia" = "au" ∧ get_country_code "Atlantis" = "F1" :=
  ⟨by decide, by decide,
   get_country_code_spec.1 ("Australia", "au") (by decide),
   get_country_code_spec.2 "Atlantis" (by decide)⟩

/-! ### Transformers -/

/-- Floor of a rational, computed from its numerator and denominator. -/
def ratFloor (q : ℚ) : ℤ := q.num.fdiv (q.den : ℤ)

/-- The round-half-to-even rule of the Python round builtin, on exact
rationals. -/
def ratRoundHalfEven (q : ℚ) : ℤ :=
  let n := ratFloor q
  if q - (n : ℚ) < 1 / 2 then n
  else if 1 / 2 < q - (n : ℚ) then n + 1
  else if n % 2 = 0 then n else n + 1

/-- Models the Python round(x, 1): round to one decimal place, ties to
even. -/
def round1 (q : ℚ) : ℚ := (ratRoundHalfEven (q * 10) : ℚ) / 10

/-- The deltaCost computation of src/main.py line 239:
round((hash(driver_code) % 21 - 10) / 10, 1). Python % with a positive
modulus returns a value in [0, 21), exactly as Int.emod does. -/
def delta_cost (hash : String → Int) (code : String) : ℚ :=
  round1 ((((hash code) % 21 - 10 : ℤ) : ℚ) / 10)

/-- Uppercase every character of a character list. -/
def charsUpper (cs : List Char) : List Char := cs.map Char.toUpper

/-- Lowercase every character of a character list. -/
def charsLower (cs : List Char) : List Char := cs.map Char.toLower

/-- Rebuild a string from a character list. -/
def strOfChars (cs : List Char) : String := ⟨cs⟩

/-- get_driver_image_url from src/main.py lines 215-223. Returns none when
the given name is empty, where the Python given_name[0] raises IndexError;
the driver_code parameter is unused in the source as well. -/
def get_driver_image_url (driver_code given_name family_name : String) :
    Option String :=
  match given_name.toList with
  | [] => none
  | c :: _ =>
    let first_name_initials := strOfChars (charsUpper (given_name.toList.take 3))
    let last_name_initials := strOfChars (charsUpper (family_name.toList.take 3))
    let driver_id := first_name_initials ++ last_name_initials ++ "01"
    some ("https://media.formula1.com/d_driver_fallback_image.png/content/dam/fom-website/drivers/"
      ++ strOfChars [c.toUpper] ++ "/" ++ driver_id ++ "_" ++ given_name ++ "_"
      ++ family_name ++ "/" ++ strOfChars (charsLower driver_id.toList) ++ ".png")

/-- transform_ergast_driver_to_driver from src/main.py lines 225-250.
Returns none where the Python code raises: an empty given name (IndexError
inside get_driver_image_url) or a driver code absent from DRIVER_TEAM_MAP
(pydantic rejects teamName=None); either failure aborts the whole request,
so the order of the two checks is observationally irrelevant. -/
def transform_ergast_driver_to_driver (hash : String → Int)
    (ergast_driver : ErgastDriver) : Option Driver :=
  match get_driver_image_url ergast_driver.code ergast_driver.givenName
      ergast_driver.familyName with
  | none => none
  | some img =>
    match List.lookup ergast_driver.code DRIVER_TEAM_MAP with
    | none => none
    | some team_name =>
      some { driverCode := ergast_driver.code
             cost := 30
             driverName := ergast_driver.givenName ++ " " ++ ergast_driver.familyName
             teamName := team_name
             deltaCost := delta_cost hash ergast_driver.code
             driverImage := img
             teamImage := (List.lookup team_name TEAM_IMAGES).getD "/assets/default.avif"
             colors := (List.lookup team_name TEAM_COLORS).getD FALLBACK_COLORS }

/-- transform_ergast_race_to_race from src/main.py lines 252-265. The source
first evaluates datetime.fromisoformat(ergast_race.date) (line 254, bound to
an unused variable, but still raising ValueError on a malformed date) and
samples datetime.now() into another unused variable (line 255, the today
parameter here); then int(ergast_race.round) can raise ValueError. -/
def transform_ergast_race_to_race (ergast_race : ErgastRace) (today : Nat) :
    Option Race :=
  match parseIsoDate ergast_race.date with
  | none => none
  | some _race_date =>
    match intOfString ergast_race.round with
    | none => none
    | some n =>
      some { id := n
             round := n
             name := ergast_race.raceName
             circuit := ergast_race.Circuit.circuitName
             country := ergast_race.Circuit.Location.country
             countryCode := get_country_code ergast_race.Circuit.Location.country
             date := ergast_race.date }

/-! ### Sample data used by witnesses -/

/-- A concrete circuit location. -/
def sampleLocation : ErgastLocation := ⟨"-37.8497", "144.968", "Melbourne", "Australia"⟩

/-- A concrete circuit. -/
def sampleCircuit : ErgastCircuit := ⟨"albert_park", "", "Albert Park Grand Prix Circuit", sampleLocation⟩

/-- A concrete well-formed Ergast race record. -/
def sampleErgastRace : ErgastRace := ⟨"2024", "4", "", "Miami Grand Prix", sampleCircuit, "2024-05-05", none⟩

/-- A concrete Ergast race record with a malformed date. -/
def badDateErgastRace : ErgastRace := ⟨"2024", "1", "", "Australian Grand Prix", sampleCircuit, "notadate", none⟩

/-- A concrete Ergast driver record with a code present in DRIVER_TEAM_MAP. -/
def edVER : ErgastDriver := ⟨"max_verstappen", "1", "VER", "", "Max", "Verstappen", "1997-09-30", "Dutch"⟩

/-- The Driver that edVER transforms to under the hash fun _ => 0. -/
def dVER : Driver :=
  ⟨"VER", 30, "Max Verstappen", "Red Bull Racing", -1,
   "https://media.formula1.com/d_driver_fallback_image.png/content/dam/fom-website/drivers/M/MAXVER01_Max_Verstappen/maxver01.png",
   "src/assets/redbull.avif", ⟨"#001526", "#0073D0", none⟩⟩

/-- A second concrete Ergast driver record. -/
def edHAM : ErgastDriver := ⟨"hamilton", "44", "HAM", "", "Lewis", "Hamilton", "1985-01-07", "British"⟩

/-- The Driver that edHAM transforms to under the hash fun _ => 7. -/
def dHAM : Driver :=
  ⟨"HAM", 30, "Lewis Hamilton", "Ferrari", -3/10,
   "https://media.formula1.com/d_driver_fallback_image.png/content/dam/fom-website/drivers/L/LEWHAM01_Lewis_Hamilton/lewham01.png",
   "src/assets/ferrari.avif", ⟨"#B41726", "#FFFFFF", some "#B41726"⟩⟩

/-- C9: the race transform is a pure function of the external record: the
sampled clock value does not influence the result. -/
theorem transform_race_clock_independent (er : ErgastRace) (t₁ t₂ : Nat) :
    transform_ergast_race_to_race er t₁ = transform_ergast_race_to_race er t₂ := rfl

/-! ### Lookup and delta cost lemmas -/

/-- A successful lookup returns a pair of the association list. -/
theorem mem_of_lookup_eq_some {α β : Type} [BEq α] [LawfulBEq α]
    {k : α} {l : List (α × β)} {v : β} (h : List.lookup k l = some v) :
    (k, v) ∈ l := by
  induction l with
  | nil => simp [List.lookup] at h
  | cons p t ih =>
    obtain ⟨a, b⟩ := p
    by_cases hka : k = a
    · subst hka
      simp [List.lookup] at h
      subst h
      exact List.mem_cons_self _ _
    · have hne : (k == a) = false := beq_eq_false_iff_ne.mpr hka
      simp [List.lookup, hne] at h
      exact List.mem_cons_of_mem _ (ih h)

/-- Round-half-to-even is the identity on integers. -/
theorem ratRoundHalfEven_intCast (k : ℤ) : ratRoundHalfEven (k : ℚ) = k := by
  have hfloor : ratFloor (k : ℚ) = k := by
    unfold ratFloor
    rw [Rat.num_intCast, Rat.den_intCast]
    norm_num
  simp only [ratRoundHalfEven, hfloor]
  norm_num

/-- The rounding in delta_cost is the identity: its argument is an exact
multiple of one tenth. -/
theorem delta_cost_eq (hash : String → Int) (code : String) :
    delta_cost hash code = (((hash code) % 21 - 10 : ℤ) : ℚ) / 10 := by
  unfold delta_cost round1
  have h10 : ((((hash code) % 21 - 10 : ℤ) : ℚ) / 10) * 10
      = (((hash code) % 21 - 10 : ℤ) : ℚ) := by
    field_simp
  rw [h10, ratRoundHalfEven_intCast]

/-- Bounds and one-decimal-place shape of delta_cost. -/
theorem delta_cost_props (hash : String → Int) (code : String) :
    -1 ≤ delta_cost hash code ∧ delta_cost hash code ≤ 1 ∧
    (10 * delta_cost hash code).den = 1 := by
  have hlo : (0 : ℚ) ≤ (((hash code) % 21 : ℤ) : ℚ) := by
    exact_mod_cast Int.emod_nonneg (hash code) (by norm_num : (21 : ℤ) ≠ 0)
  have hhi : (((hash code) % 21 : ℤ) : ℚ) ≤ 20 := by
    have h21 := Int.emod_lt_of_pos (hash code) (by norm_num : (0 : ℤ) < 21)
    exact_mod_cast (by omega : (hash code) % 21 ≤ 20)
  rw [delta_cost_eq]
  refine ⟨?_, ?_, ?_⟩
  · rw [le_div_iff₀ (by norm_num : (0 : ℚ) < 10)]
    push_cast
    linarith
  · rw [div_le_one (by norm_num : (0 : ℚ) < 10)]
    push_cast
    linarith
  · rw [mul_comm, div_mul_cancel₀ _ (by norm_num : (10 : ℚ) ≠ 0)]
    exact Rat.den_intCast _

/-- C7: every driver produced by the transform has cost exactly 30 and a
deltaCost that is a function of the hash of the driver code alone, lies in
the closed interval from -1 to 1, and has exactly one decimal place. -/
theorem driver_cost_and_delta (hash : String → Int) (ed : ErgastDriver)
    (d : Driver) (h : transform_ergast_driver_to_driver hash ed = some d) :
    d.cost = 30 ∧ d.deltaCost = delta_cost hash ed.code ∧
    -1 ≤ d.deltaCost ∧ d.deltaCost ≤ 1 ∧ (10 * d.deltaCost).den = 1 := by
  unfold transform_ergast_driver_to_driver at h
  split at h
  · exact absurd h (by simp)
  · split at h
    · exact absurd h (by simp)
    · obtain rfl : _ = d := Option.some.inj h
      obtain ⟨h1, h2, h3⟩ := delta_cost_props hash ed.code
      exact ⟨rfl, rfl, h1, h2, h3⟩

/-- Witness for C7 at the concrete record edHAM under the hash fun _ => 7. -/
theorem driver_cost_and_delta_witness :
    transform_ergast_driver_to_driver (fun _ => 7) edHAM = some dHAM ∧
    (dHAM.cost = 30 ∧ dHAM.deltaCost = delta_cost (fun _ => 7) edHAM.code ∧
     -1 ≤ dHAM.deltaCost ∧ dHAM.deltaCost ≤ 1 ∧ (10 * dHAM.deltaCost).den = 1) :=
  ⟨by with_unfolding_all decide,
   driver_cost_and_delta (fun _ => 7) edHAM dHAM (by with_unfolding_all decide)⟩

/-- C8 counterexample: an external race record whose round parses as the
integer 1 but whose date string is malformed makes the transform raise
(return none) at the fromisoformat call of line 254, so no Race at all is
produced, contradicting the claim as stated. -/
theorem transform_race_bad_date_counterexample :
    intOfString badDateErgastRace.round = some 1 ∧
    transform_ergast_race_to_race badDateErgastRace 0 = none := by
  exact ⟨by decide, by decide⟩

/-- C8 (amended): for every external race record whose round field parses as
an integer and whose date string parses as an ISO date, the race transform
produces a Race whose id and round both equal the integer parse of the round
and whose date field is the external date string passed through unchanged. -/
theorem transform_race_round_and_date (er : ErgastRace) (today : Nat) (n : Int)
    (hround : intOfString er.round = some n)
    (hdate : (parseIsoDate er.date).isSome) :
    ∃ r : Race, transform_ergast_race_to_race er today = some r ∧
      r.id = n ∧ r.round = n ∧ r.date = er.date := by
  obtain ⟨k, hk⟩ := Option.isSome_iff_exists.mp hdate
  unfold transform_ergast_race_to_race
  rw [hk, hround]
  exact ⟨_, rfl, rfl, rfl, rfl⟩

/-- Witness for C8 at the concrete record sampleErgastRace. -/
theorem transform_race_round_and_date_witness :
    intOfString sampleErgastRace.round = some 4 ∧
    (parseIsoDate sampleErgastRace.date).isSome ∧
    ∃ r : Race, transform_ergast_race_to_race sampleErgastRace 0 = some r ∧
      r.id = 4 ∧ r.round = 4 ∧ r.date = sampleErgastRace.date :=
  ⟨by decide, by decide,
   transform_race_round_and_date sampleErgastRace 0 4 (by decide) (by decide)⟩

/-- C10: under the precondition that the driver code is a key of
DRIVER_TEAM_MAP, the default branches of the driver transform are
unreachable: the looked-up team name is a key of both TEAM_COLORS and
TEAM_IMAGES, so the returned colors are never the fallback set and the
returned team image is never the default path. -/
theorem driver_default_branches_unreachable (hash : String → Int)
    (ed : ErgastDriver) (d : Driver)
    (hkey : (List.lookup ed.code DRIVER_TEAM_MAP).isSome)
    (h : transform_ergast_driver_to_driver hash ed = some d) :
    (List.lookup d.teamName TEAM_COLORS).isSome ∧
    (List.lookup d.teamName TEAM_IMAGES).isSome ∧
    d.colors ≠ FALLBACK_COLORS ∧ d.teamImage ≠ "/assets/default.avif" := by
  have htable : ∀ p ∈ DRIVER_TEAM_MAP,
      (List.lookup p.2 TEAM_COLORS).isSome ∧
      (List.lookup p.2 TEAM_IMAGES).isSome ∧
      (List.lookup p.2 TEAM_COLORS).getD FALLBACK_COLORS ≠ FALLBACK_COLORS ∧
      (List.lookup p.2 TEAM_IMAGES).getD "/assets/default.avif" ≠ "/assets/default.avif" := by
    decide
  unfold transform_ergast_driver_to_driver at h
  split at h
  · exact absurd h (by simp)
  · split at h
    · exact absurd h (by simp)
    · rename_i team hteam
      obtain rfl : _ = d := Option.some.inj h
      exact htable (ed.code, team) (mem_of_lookup_eq_some hteam)

/-- Witness for C10 at the concrete record edVER under the hash fun _ => 0. -/
theorem driver_default_branches_unreachable_witness :
    (List.lookup edVER.code DRIVER_TEAM_MAP).isSome ∧
    transform_ergast_driver_to_driver (fun _ => 0) edVER = some dVER ∧
    ((List.lookup dVER.teamName TEAM_COLORS).isSome ∧
     (List.lookup dVER.teamName TEAM_IMAGES).isSome ∧
     dVER.colors ≠ FALLBACK_COLORS ∧ dVER.teamImage ≠ "/assets/default.avif") :=
  ⟨by decide, by with_unfolding_all decide,
   driver_default_branches_unreachable (fun _ => 0) edVER dVER (by decide)
     (by with_unfolding_all decide)⟩

/-! ### Fetchers -/

/-- Outcome of the outbound GET plus JSON decode, as seen by the code in the
try block: httpx raises a network error or timeout during client.get, or
raise_for_status raises on a non-2xx status (all three are httpx.HTTPError
subclasses); response.json() or the pydantic envelope validation raises any
other exception; otherwise the decoded payload is available. -/
inductive UpstreamOutcome (α : Type) where
  | networkError (cause : String)
  | timeoutError (cause : String)
  | statusError (cause : String)
  | decodeError (cause : String)
  | success (payload : α)

/-- Transform every element of a list, failing as a whole when any single
element fails, exactly as an exception thrown inside a Python list
comprehension aborts the whole comprehension. -/
def transformAll {α β : Type} (f : α → Option β) : List α → Option (List β)
  | [] => some []
  | x :: xs =>
    match f x, transformAll f xs with
    | some y, some ys => some (y :: ys)
    | _, _ => none

/-- The str(e) text of a ValueError raised inside the race transform; the
claims constrain only the status code and the fixed prefix of the detail. -/
def raceTransformCause : String := "ValueError"

/-- The str(e) text of an exception raised inside the driver transform. -/
def driverTransformCause : String := "IndexError"

/-- fetch_races_from_ergast from src/main.py lines 294-317, as a function of
the upstream outcome. httpx.HTTPError (network, timeout, non-2xx) maps to
HTTP 503; every other exception (JSON decode, envelope shape mismatch,
ValueError inside the transform) maps to HTTP 500; each detail embeds the
cause after a fixed prefix. -/
def fetch_races_from_ergast (today : Nat)
    (outcome : UpstreamOutcome (List ErgastRace)) :
    Except HTTPException (List Race) :=
  match outcome with
  | .networkError c | .timeoutError c | .statusError c =>
      .error ⟨503, "Failed to fetch races from Ergast API: " ++ c⟩
  | .decodeError c => .error ⟨500, "Error processing race data: " ++ c⟩
  | .success ers =>
    match transformAll (fun er => transform_ergast_race_to_race er today) ers with
    | some races => .ok races
    | none => .error ⟨500, "Error processing race data: " ++ raceTransformCause⟩

/-- fetch_drivers_from_ergast from src/main.py lines 267-291: same failure
taxonomy as the race fetcher; on success the list comprehension keeps only
records whose code is a key of DRIVER_TEAM_MAP and transforms each. -/
def fetch_drivers_from_ergast (hash : String → Int)
    (outcome : UpstreamOutcome (List ErgastDriver)) :
    Except HTTPException (List Driver) :=
  match outcome with
  | .networkError c | .timeoutError c | .statusError c =>
      .error ⟨503, "Failed to fetch drivers from Ergast API: " ++ c⟩
  | .decodeError c => .error ⟨500, "Error processing driver data: " ++ c⟩
  | .success eds =>
    match transformAll (transform_ergast_driver_to_driver hash)
        (eds.filter (fun ed => (List.lookup ed.code DRIVER_TEAM_MAP).isSome)) with
    | some drivers => .ok drivers
    | none => .error ⟨500, "Error processing driver data: " ++ driverTransformCause⟩

/-- C3: classification of every fetch outcome for both fetchers: network
failure, timeout and non-2xx give HTTP 503 with the cause embedded; a decode
or shape mismatch gives HTTP 500 with the cause embedded; a transform
failure gives HTTP 500; and a fetch succeeds exactly when every record
transforms, so no partial result is ever returned. -/
theorem fetch_error_taxonomy :
    (∀ (today : Nat) (c : String),
      fetch_races_from_ergast today (.networkError c) =
        .error ⟨503, "Failed to fetch races from Ergast API: " ++ c⟩ ∧
      fetch_races_from_ergast today (.timeoutError c) =
        .error ⟨503, "Failed to fetch races from Ergast API: " ++ c⟩ ∧
      fetch_races_from_ergast today (.statusError c) =
        .error ⟨503, "Failed to fetch races from Ergast API: " ++ c⟩ ∧
      fetch_races_from_ergast today (.decodeError c) =
        .error ⟨500, "Error processing race data: " ++ c⟩) ∧
    (∀ (today : Nat) (ers : List ErgastRace),
      (transformAll (fun er => transform_ergast_race_to_race er today) ers = none →
        fetch_races_from_ergast today (.success ers) =
          .error ⟨500, "Error processing race data: " ++ raceTransformCause⟩) ∧
      (∀ races : List Race,
        fetch_races_from_ergast today (.success ers) = .ok races ↔
          transformAll (fun er => transform_ergast_race_to_race er today) ers =
            some races)) ∧
    (∀ c : String,
      fetch_drivers_from_ergast (fun _ => 0) (.networkError c) =
        .error ⟨503, "Failed to fetch drivers from Ergast API: " ++ c⟩ ∧
      fetch_drivers_from_ergast (fun _ => 0) (.timeoutError c) =
        .error ⟨503, "Failed to fetch drivers from Ergast API: " ++ c⟩ ∧
      fetch_drivers_from_ergast (fun _ => 0) (.statusError c) =
        .error ⟨503, "Failed to fetch drivers from Ergast API: " ++ c⟩ ∧
      fetch_drivers_from_ergast (fun _ => 0) (.decodeError c) =
        .error ⟨500, "Error processing driver data: " ++ c⟩) ∧
    (∀ (hash : String → Int) (eds : List ErgastDriver),
      (transformAll (transform_ergast_driver_to_driver hash)
          (eds.filter (fun ed => (List.lookup ed.code DRIVER_TEAM_MAP).isSome)) = none →
        fetch_drivers_from_ergast hash (.success eds) =
          .error ⟨500, "Error processing driver data: " ++ driverTransformCause⟩) ∧
      (∀ ds : List Driver,
        fetch_drivers_from_ergast hash (.success eds) = .ok ds ↔
          transformAll (transform_ergast_driver_to_driver hash)
            (eds.filter (fun ed => (List.lookup ed.code DRIVER_TEAM_MAP).isSome)) =
            some ds)) := by
  have hrs : ∀ (today : Nat) (ers : List ErgastRace),
      fetch_races_from_ergast today (.success ers) =
        match transformAll (fun er => transform_ergast_race_to_race er today) ers with
        | some races => .ok races
        | none => .error ⟨500, "Error processing race data: " ++ raceTransformCause⟩ :=
    fun _ _ => rfl
  have hds : ∀ (hash : String → Int) (eds : List ErgastDriver),
      fetch_drivers_from_ergast hash (.success eds) =
        match transformAll (transform_ergast_driver_to_driver hash)
            (eds.filter (fun ed => (List.lookup ed.code DRIVER_TEAM_MAP).isSome)) with
        | some drivers => .ok drivers
        | none => .error ⟨500, "Error processing driver data: " ++ driverTransformCause⟩ :=
    fun _ _ => rfl
  refine ⟨fun today c => ⟨rfl, rfl, rfl, rfl⟩, fun today ers => ⟨?_, ?_⟩,
    fun c => ⟨rfl, rfl, rfl, rfl⟩, fun hash eds => ⟨?_, ?_⟩⟩
  · intro h
    rw [hrs, h]
  · intro races
    rw [hrs]
    cases hta : transformAll (fun er => transform_ergast_race_to_race er today) ers with
    | none => simp
    | some l => simp [eq_comm]
  · intro h
    rw [hds, h]
  · intro ds
    rw [hds]
    cases hta : transformAll (transform_ergast_driver_to_driver hash)
        (eds.filter (fun ed => (List.lookup ed.code DRIVER_TEAM_MAP).isSome)) with
    | none => simp
    | some l => simp [eq_comm]

/-- Witness for C3: the 503 network case at a concrete cause string, and the
transform-failure 500 case at a concrete race list whose only record has an
unparseable date. -/
theorem fetch_error_taxonomy_witness :
    fetch_races_from_ergast 0 (.networkError "connection refused") =
      .error ⟨503, "Failed to fetch races from Ergast API: connection refused"⟩ ∧
    transformAll (fun er => transform_ergast_race_to_race er 0) [badDateErgastRace] = none ∧
    fetch_races_from_ergast 0 (.success [badDateErgastRace]) =
      .error ⟨500, "Error processing race data: " ++ raceTransformCause⟩ :=
  ⟨(fetch_error_taxonomy.1 0 "connection refused").1,
   by decide,
   (fetch_error_taxonomy.2.1 0 [badDateErgastRace]).1 (by decide)⟩

/-! ### Route handlers -/

/-- get_race from src/main.py lines 363-372: scan the fetched race list and
return the first race whose id equals the requested round, else raise 404. -/
def get_race (races : List Race) (round : Int) : Except HTTPException Race :=
  match races with
  | [] => .error ⟨404, "Race not found"⟩
  | r :: rs => if r.id = round then .ok r else get_race rs round

/-- C4: get_race returns the first race of the list whose id equals the
requested round, and raises HTTP 404 with detail Race not found when no
race matches. -/
theorem get_race_first_match (races : List Race) (rd : Int) :
    (∀ r : Race, races.find? (fun x => x.id == rd) = some r →
      get_race races rd = .ok r) ∧
    (races.find? (fun x => x.id == rd) = none →
      get_race races rd = .error ⟨404, "Race not found"⟩) := by
  induction races with
  | nil =>
    refine ⟨fun r h => ?_, fun _ => rfl⟩
    simp at h
  | cons a t ih =>
    by_cases ha : a.id = rd
    · have hb : (a.id == rd) = true := beq_iff_eq.mpr ha
      constructor
      · intro r h
        simp only [List.find?_cons, hb] at h
        obtain rfl := Option.some.inj h
        simp [get_race, ha]
      · intro h
        simp only [List.find?_cons, hb] at h
        cases h
    · have hb : (a.id == rd) = false := beq_eq_false_iff_ne.mpr ha
      constructor
      · intro r h
        simp only [List.find?_cons, hb] at h
        simp [get_race, ha, ih.1 r h]
      · intro h
        simp only [List.find?_cons, hb] at h
        simp [get_race, ha, ih.2 h]

/-- Concrete races used by witnesses, dated as in the spec scenario. -/
def raceJan : Race := ⟨1, 1, "Race One", "Circuit One", "Australia", "au", "2024-01-01"⟩

/-- Second concrete race. -/
def raceJun : Race := ⟨2, 2, "Race Two", "Circuit Two", "Monaco", "mc", "2024-06-01"⟩

/-- Third concrete race. -/
def raceDec : Race := ⟨3, 3, "Race Three", "Circuit Three", "Brazil", "br", "2024-12-01"⟩

/-- Witness for C4: no race of the concrete list has round 5, so the lookup
raises 404 with detail Race not found. -/
theorem get_race_first_match_witness :
    [raceJan, raceJun, raceDec].find? (fun x => x.id == 5) = none ∧
    get_race [raceJan, raceJun, raceDec] 5 = .error ⟨404, "Race not found"⟩ :=
  ⟨by decide, (get_race_first_match [raceJan, raceJun, raceDec] 5).2 (by decide)⟩

/-- Membership in the output of transformAll. -/
theorem transformAll_mem {α β : Type} (f : α → Option β) :
    ∀ (l : List α) (l2 : List β), transformAll f l = some l2 →
      ∀ b : β, (b ∈ l2 ↔ ∃ a ∈ l, f a = some b) := by
  intro l
  induction l with
  | nil =>
    intro l2 h b
    obtain rfl := Option.some.inj h
    simp
  | cons a t ih =>
    intro l2 h b
    unfold transformAll at h
    cases hfa : f a with
    | none => rw [hfa] at h; simp at h
    | some y =>
      cases hta : transformAll f t with
      | none => rw [hfa, hta] at h; simp at h
      | some ys =>
        rw [hfa, hta] at h
        obtain rfl := Option.some.inj h
        simp only [List.mem_cons]
        constructor
        · rintro (rfl | hb)
          · exact ⟨a, Or.inl rfl, hfa⟩
          · obtain ⟨x, hx, hfx⟩ := (ih ys hta b).mp hb
            exact ⟨x, Or.inr hx, hfx⟩
        · rintro ⟨x, hx, hfx⟩
          rcases hx with rfl | hmem
          · exact Or.inl (Option.some.inj (hfa.symm.trans hfx)).symm
          · exact Or.inr ((ih ys hta b).mpr ⟨x, hmem, hfx⟩)

/-- C5: a fetched driver record contributes to the drivers output exactly
when its three-letter code is a key of DRIVER_TEAM_MAP; records with absent
codes are filtered out entirely, never emitted with default fields. -/
theorem drivers_filtered_by_team_map (hash : String → Int)
    (eds : List ErgastDriver) (ds : List Driver)
    (h : fetch_drivers_from_ergast hash (.success eds) = .ok ds) (d : Driver) :
    d ∈ ds ↔ ∃ ed ∈ eds, (List.lookup ed.code DRIVER_TEAM_MAP).isSome ∧
      transform_ergast_driver_to_driver hash ed = some d := by
  have hds : fetch_drivers_from_ergast hash (.success eds) =
      match transformAll (transform_ergast_driver_to_driver hash)
          (eds.filter (fun ed => (List.lookup ed.code DRIVER_TEAM_MAP).isSome)) with
      | some drivers => .ok drivers
      | none => .error ⟨500, "Error processing driver data: " ++ driverTransformCause⟩ := rfl
  rw [hds] at h
  cases hta : transformAll (transform_ergast_driver_to_driver hash)
      (eds.filter (fun ed => (List.lookup ed.code DRIVER_TEAM_MAP).isSome)) with
  | none => rw [hta] at h; cases h
  | some l =>
    rw [hta] at h
    obtain rfl : l = ds := by
      cases h
      rfl
    rw [transformAll_mem _ _ _ hta d]
    constructor
    · rintro ⟨a, ha, hfa⟩
      rw [List.mem_filter] at ha
      exact ⟨a, ha.1, ha.2, hfa⟩
    · rintro ⟨a, ha, hsome, hfa⟩
      exact ⟨a, List.mem_filter.mpr ⟨ha, hsome⟩, hfa⟩

/-- A concrete Ergast driver record whose code is not in DRIVER_TEAM_MAP. -/
def edUNK : ErgastDriver := ⟨"unknown", "99", "XXX", "", "Un", "Known", "", ""⟩

/-- Witness for C5: a list holding only a record with an unmapped code
yields an empty drivers output, and the membership equivalence holds for a
concrete driver value. -/
theorem drivers_filtered_by_team_map_witness :
    fetch_drivers_from_ergast (fun _ => 0) (.success [edUNK]) = .ok [] ∧
    (dVER ∈ ([] : List Driver) ↔ ∃ ed ∈ [edUNK],
      (List.lookup ed.code DRIVER_TEAM_MAP).isSome ∧
      transform_ergast_driver_to_driver (fun _ => 0) ed = some dVER) :=
  ⟨rfl, drivers_filtered_by_team_map (fun _ => 0) [edUNK] [] rfl dVER⟩

/-- Date key of a race, with 0 for an unparseable date; only used where the
date is known to parse. -/
def dateKey (r : Race) : Nat := (parseIsoDate r.date).getD 0

/-- A race whose date is on or before the sampled now (the if branch of the
loop of get_upto_next_races). -/
def isPast (now : Nat) (r : Race) : Bool := decide (dateKey r ≤ now)

/-- A race whose date is strictly after the sampled now. -/
def isFuture (now : Nat) (r : Race) : Bool := decide (now < dateKey r)

/-- The loop of get_upto_next_races (src/main.py lines 348-357): walk the
race list once, keeping every race dated on or before now and the first
race dated after now; the added flag records whether a future race has been
kept. datetime.fromisoformat runs on every race visited, so any unparseable
date aborts the whole request (none). -/
def uptoAux (now : Nat) : List Race → Bool → Option (List Race)
  | [], _ => some []
  | r :: rs, added =>
    match parseIsoDate r.date with
    | none => none
    | some d =>
      if d ≤ now then (uptoAux now rs added).map (fun out => r :: out)
      else if added then uptoAux now rs added
      else (uptoAux now rs true).map (fun out => r :: out)

/-- get_upto_next_races from src/main.py lines 340-361: run the loop with
the added flag initially false, then reverse the output. -/
def get_upto_next_races (races : List Race) (now : Nat) : Option (List Race) :=
  (uptoAux now races false).map List.reverse

/-- Once a future race has been kept, the rest of the loop keeps exactly the
races dated on or before now. -/
theorem uptoAux_added (now : Nat) (rs : List Race)
    (hparse : ∀ r ∈ rs, (parseIsoDate r.date).isSome) :
    uptoAux now rs true = some (rs.filter (isPast now)) := by
  induction rs with
  | nil => rfl
  | cons r t ih =>
    obtain ⟨d, hd⟩ :=
      Option.isSome_iff_exists.mp (hparse r (List.mem_cons_self r t))
    have hkey : dateKey r = d := by simp [dateKey, hd]
    have ht := ih (fun x hx => hparse x (List.mem_cons_of_mem r hx))
    by_cases hle : d ≤ now
    · simp [uptoAux, hd, hle, ht, List.filter_cons, isPast, hkey]
    · simp [uptoAux, hd, hle, ht, List.filter_cons, isPast, hkey]

/-- While no future race has been kept, the loop keeps the races dated on or
before now plus the first race dated after now, in list order; the date
ordering hypothesis makes every race after the first future one future as
well. -/
theorem uptoAux_not_added (now : Nat) (rs : List Race)
    (hparse : ∀ r ∈ rs, (parseIsoDate r.date).isSome)
    (hsorted : rs.Pairwise (fun a b => dateKey a ≤ dateKey b)) :
    uptoAux now rs false =
      some (rs.filter (isPast now) ++ (rs.find? (isFuture now)).toList) := by
  induction rs with
  | nil => rfl
  | cons r t ih =>
    obtain ⟨d, hd⟩ :=
      Option.isSome_iff_exists.mp (hparse r (List.mem_cons_self r t))
    have hkey : dateKey r = d := by simp [dateKey, hd]
    rw [List.pairwise_cons] at hsorted
    obtain ⟨hall, hsorted2⟩ := hsorted
    have hparset := fun x hx => hparse x (List.mem_cons_of_mem r hx)
    by_cases hle : d ≤ now
    · have hfut : isFuture now r = false := by
        simp [isFuture, hkey]
        omega
      simp [uptoAux, hd, hle, ih hparset hsorted2, List.filter_cons,
        List.find?_cons, isPast, hkey, hfut]
    · have hnow : now < d := Nat.lt_of_not_le hle
      have hfut : isFuture now r = true := by
        simp [isFuture, hkey]
        omega
      have hfilter : t.filter (isPast now) = [] := by
        rw [List.filter_eq_nil_iff]
        intro x hx
        have hxd := hall x hx
        rw [hkey] at hxd
        simp [isPast]
        omega
      simp [uptoAux, hd, hle, uptoAux_added now t hparset, hfilter,
        List.filter_cons, List.find?_cons, isPast, hkey, hfut]

/-- C1: for every fetched race list with chronologically ascending dates and
every sampled now, the upto endpoint returns the races dated on or before
now plus at most the first race dated after now, reversed to latest-first. -/
theorem upto_next_races_spec (races : List Race) (now : Nat)
    (hparse : ∀ r ∈ races, (parseIsoDate r.date).isSome)
    (hsorted : races.Pairwise (fun a b => dateKey a ≤ dateKey b)) :
    get_upto_next_races races now =
      some ((races.filter (isPast now) ++
        (races.find? (isFuture now)).toList).reverse) := by
  unfold get_upto_next_races
  rw [uptoAux_not_added now races hparse hsorted]
  rfl

/-- Witness for C1 at the spec scenario: races dated 2024-01-01, 2024-06-01,
2024-12-01 with now = 2024-07-01 yield the two past races plus the next
future race, latest-first. -/
theorem upto_next_races_spec_witness :
    (∀ r ∈ [raceJan, raceJun, raceDec], (parseIsoDate r.date).isSome) ∧
    ([raceJan, raceJun, raceDec].Pairwise (fun a b => dateKey a ≤ dateKey b)) ∧
    get_upto_next_races [raceJan, raceJun, raceDec] (dateKeyOf 2024 7 1) =
      some [raceDec, raceJun, raceJan] :=
  ⟨by decide, by decide,
   (upto_next_races_spec [raceJan, raceJun, raceDec] (dateKeyOf 2024 7 1)
     (by decide) (by decide)).trans (by decide)⟩

/-- Modelled from the spec: src/main.py defines no /api/drivers/images
route, so this handler is missing from the source; following the
specification words, it maps each fetched driver to the pair of its driver
code and image URL, omits every driver whose image URL is the empty string,
and surfaces any driver-source failure as HTTP 500. -/
def get_drivers_images (source : Except HTTPException (List Driver)) :
    Except HTTPException (List (String × String)) :=
  match source with
  | .error e => .error ⟨500, e.detail⟩
  | .ok ds =>
    .ok ((ds.filter (fun d => !(d.driverImage == ""))).map
      (fun d => (d.driverCode, d.driverImage)))

/-- C2: the drivers/images endpoint maps driver codes to image URLs,
omitting exactly the drivers whose image URL is empty, and fails with HTTP
500 when the driver source fails. -/
theorem drivers_images_spec :
    (∀ (ds : List Driver) (l : List (String × String)),
      get_drivers_images (.ok ds) = .ok l →
      ∀ c u : String, ((c, u) ∈ l ↔
        ∃ d ∈ ds, d.driverCode = c ∧ d.driverImage = u ∧ u ≠ "")) ∧
    (∀ e : HTTPException,
      get_drivers_images (.error e) = .error ⟨500, e.detail⟩) := by
  constructor
  · intro ds l h c u
    obtain rfl : _ = l := by
      cases h
      rfl
    simp only [List.mem_map, List.mem_filter, Bool.not_eq_eq_eq_not,
      Bool.not_true, beq_eq_false_iff_ne, ne_eq, Prod.mk.injEq]
    constructor
    · rintro ⟨d, ⟨hd, hne⟩, hc, hu⟩
      exact ⟨d, hd, hc, hu, hu ▸ hne⟩
    · rintro ⟨d, hd, hc, hu, hune⟩
      exact ⟨d, ⟨hd, hu ▸ hune⟩, hc, hu⟩
  · intro e
    rfl

/-- A concrete driver whose image URL is the empty string. -/
def dEMP : Driver := ⟨"EMP", 30, "Em Ptee", "Nowhere", 0, "", "", ⟨"#111111", "#222222", none⟩⟩

/-- Witness for C2: a source returning one driver with an empty image URL
yields an empty mapping, and the membership equivalence holds there. -/
theorem drivers_images_spec_witness :
    get_drivers_images (.ok [dEMP]) = .ok [] ∧
    (("EMP", "") ∈ ([] : List (String × String)) ↔
      ∃ d ∈ [dEMP], d.driverCode = "EMP" ∧ d.driverImage = "" ∧ ("" : String) ≠ "") :=
  ⟨rfl, drivers_images_spec.1 [dEMP] [] rfl "EMP" ""⟩
